import Mathlib

/-!
Shallow embedding of the `bump` notification center
(`src/include/bump/NotificationCenter.h`, `src/src/bump/NotificationCenter.cpp`).

Modelling conventions:
* An owner identity (`void* _observer`) is an opaque comparable handle,
  modelled as `Nat`; the registry only ever compares it for equality.
* A `boost::any` payload is observed by the dispatch code only through the
  success or failure of `boost::any_cast`, so it is modelled by the type tag
  of the value it holds (`Payload.typeTag`).  An `ObjectObserver` stores the
  tag of its own `any_cast` target (`castTag`): for the value/reference
  constructors that is the tag of `T2`, for the pointer constructors the tag
  of `T2*`; distinct C++ types have distinct tags.
* A bound callback (`boost::function`) is owner-defined code whose only
  registry-visible effect is that it runs; each binding carries an id
  (`cbId`) naming its callback, and every operation that dispatches returns
  the ordered list of callback ids it actually invoked.  Callbacks are
  modelled as non-raising and as not re-entering the center.
* C++ exceptions (`throw NotificationError(...)`) become `Except.error`
  results that carry the same message string the source builds;
  `BUMP_LOCATION` is an opaque source-location token.
* Methods are embedded in state-passing style: an operation that in C++ can
  touch the member vectors returns the resulting `NotificationCenter`
  alongside its value, so that frame properties are provable rather than
  assumed.
-/

/-- The `Observer::ObserverType` discriminator: `KEY_OBSERVER` bindings take
no payload, `OBJECT_OBSERVER` bindings take a `boost::any` payload. -/
inductive ObserverType
  | KEY_OBSERVER
  | OBJECT_OBSERVER
deriving DecidableEq, Repr

/-- One registered binding, the state shared by `Observer` and its two
subclasses `KeyObserver` / `ObjectObserver`: the owner identity
(`_observer`), the notification name (`_notificationName`), the shape
discriminator (`_observerType`), the `any_cast` target type tag of an
object observer (meaningless for a key observer), and the id of the bound
callback closure (used for the invocation trace). -/
structure Observer where
  observer : Nat
  notificationName : String
  observerType : ObserverType
  castTag : Nat
  cbId : Nat
deriving DecidableEq, Repr

/-- A `boost::any` payload, observed only through its runtime type tag. -/
structure Payload where
  typeTag : Nat
deriving DecidableEq, Repr

/-- The `bump::NotificationError` exception: a message and a
`BUMP_LOCATION` source-location token. -/
structure NotificationError where
  msg : String
  location : String
deriving DecidableEq, Repr

/-- Opaque stand-in for the `BUMP_LOCATION` macro. -/
def BUMP_LOCATION : String := "bump/NotificationCenter"

/-- `Observer::containsObserver(void* observer)`:
`return observer == _observer;`. -/
def Observer.containsObserver (self : Observer) (observer : Nat) : Bool :=
  observer == self.observer

/-- The `KeyObserver<T>` constructor: stores the owner, binds the
zero-argument member function pointer, and sets `KEY_OBSERVER`. -/
def KeyObserver.mk (observer : Nat) (cbId : Nat) (notificationName : String) :
    Observer :=
  { observer := observer, notificationName := notificationName,
    observerType := ObserverType.KEY_OBSERVER, castTag := 0, cbId := cbId }

/-- The `ObjectObserver<T1, T2>` constructors taking `void (T1::*)(T2)` or
`void (T1::*)(const T2&)`: `_functionPointerWithObject` is bound, the
`any_cast` target is `T2`, whose tag the caller supplies as `castTag`. -/
def ObjectObserver.mkWithObject (observer : Nat) (cbId : Nat) (castTag : Nat)
    (notificationName : String) : Observer :=
  { observer := observer, notificationName := notificationName,
    observerType := ObserverType.OBJECT_OBSERVER, castTag := castTag,
    cbId := cbId }

/-- The `ObjectObserver<T1, T2>` constructors taking `void (T1::*)(T2*)` or
`void (T1::*)(const T2*)`: `_functionPointerWithPointer` is bound, the
`any_cast` target is `T2*`, whose tag the caller supplies as `castTag`. -/
def ObjectObserver.mkWithPointer (observer : Nat) (cbId : Nat) (castTag : Nat)
    (notificationName : String) : Observer :=
  { observer := observer, notificationName := notificationName,
    observerType := ObserverType.OBJECT_OBSERVER, castTag := castTag,
    cbId := cbId }

/-- `KeyObserver::notify()`: `_functionPointer();` — runs the bound
callback (recorded in the trace); the body performs no cast and contains no
throw, so with non-raising owner callbacks it always succeeds. -/
def KeyObserver.notify (self : Observer) :
    Except NotificationError (List Nat) :=
  Except.ok [self.cbId]

/-- The message built by `ObjectObserver::notify` when `boost::any_cast`
throws `bad_any_cast`:
`String("Notification object for \"%1\" has invalid type for bound callback.").arg(_notificationName)`. -/
def typeMismatchMsg (notificationName : String) : String :=
  "Notification object for \"" ++ notificationName ++
    "\" has invalid type for bound callback."

/-- `ObjectObserver::notify(const boost::any& object)`: casts `object` to
the declared target type (`T2` or `T2*`, depending on which function
pointer is bound) and calls the bound callback with the result; if the cast
throws `bad_any_cast`, throws a `NotificationError` naming the
notification.  The cast succeeds exactly when the payload's runtime type
tag equals the stored `any_cast` target tag. -/
def ObjectObserver.notify (self : Observer) (object : Payload) :
    Except NotificationError (List Nat) :=
  if object.typeTag == self.castTag then
    Except.ok [self.cbId]
  else
    Except.error
      { msg := typeMismatchMsg self.notificationName,
        location := BUMP_LOCATION }

/-- The `bump::NotificationCenter` state: the two ordered collections
`_keyObservers` and `_objectObservers`. -/
structure NotificationCenter where
  keyObservers : List Observer
  objectObservers : List Observer
deriving DecidableEq, Repr

/-- `NotificationCenter::addObserver(Observer* observer)`: appends to
`_keyObservers` when `observer->observerType() == KEY_OBSERVER`, otherwise
to `_objectObservers`. -/
def NotificationCenter.addObserver (nc : NotificationCenter)
    (observer : Observer) : NotificationCenter :=
  if observer.observerType = ObserverType.KEY_OBSERVER then
    { nc with keyObservers := nc.keyObservers ++ [observer] }
  else
    { nc with objectObservers := nc.objectObservers ++ [observer] }

/-- The `BOOST_FOREACH` early-return scan inside
`NotificationCenter::containsObserver` over one collection: returns `true`
at the first element whose `containsObserver` matches. -/
def containsObserverLoop (observer : Nat) : List Observer → Bool
  | [] => false
  | o :: rest =>
    if o.containsObserver observer then true
    else containsObserverLoop observer rest

/-- `NotificationCenter::containsObserver(void* observer)`: scans
`_keyObservers` then `_objectObservers`, returning `true` at the first
match and `false` after both scans; the method writes no member state, so
the resulting center is returned unchanged alongside the boolean. -/
def NotificationCenter.containsObserver (nc : NotificationCenter)
    (observer : Nat) : Bool × NotificationCenter :=
  if containsObserverLoop observer nc.keyObservers then (true, nc)
  else if containsObserverLoop observer nc.objectObservers then (true, nc)
  else (false, nc)

/-- The `BOOST_FOREACH` loop of `NotificationCenter::postNotification`:
for each observer whose `notificationName()` equals the posted name, calls
the virtual `notify()` (a `KeyObserver::notify`, since `addObserver` routes
only `KEY_OBSERVER` bindings here) and increments `notification_count`; an
exception escaping `notify` propagates out of the loop.  Accumulates the
local counter, the invocation trace, and threads the center state. -/
def postNotificationLoop (notificationName : String) :
    List Observer → Nat → List Nat → NotificationCenter →
      (List Nat × Except NotificationError Nat) × NotificationCenter
  | [], count, invoked, nc => ((invoked, Except.ok count), nc)
  | o :: rest, count, invoked, nc =>
    if o.notificationName == notificationName then
      match KeyObserver.notify o with
      | Except.ok tr =>
          postNotificationLoop notificationName rest (count + 1)
            (invoked ++ tr) nc
      | Except.error e => ((invoked, Except.error e), nc)
    else
      postNotificationLoop notificationName rest count invoked nc

/-- `NotificationCenter::postNotification(const String& notificationName)`:
initializes `notification_count = 0` and runs the scan loop over
`_keyObservers`.  Returns the invocation trace, the count (or the
propagated exception), and the resulting center state. -/
def NotificationCenter.postNotification (nc : NotificationCenter)
    (notificationName : String) :
    (List Nat × Except NotificationError Nat) × NotificationCenter :=
  postNotificationLoop notificationName nc.keyObservers 0 [] nc

/-- The `BOOST_FOREACH` loop of
`NotificationCenter::postNotificationWithObject`: for each observer whose
`notificationName()` equals the posted name, calls the virtual
`notify(object)` (an `ObjectObserver::notify`) and increments
`notification_count`; a `NotificationError` escaping `notify` propagates
out of the loop, abandoning the rest of the scan. -/
def postNotificationWithObjectLoop (notificationName : String)
    (object : Payload) :
    List Observer → Nat → List Nat → NotificationCenter →
      (List Nat × Except NotificationError Nat) × NotificationCenter
  | [], count, invoked, nc => ((invoked, Except.ok count), nc)
  | o :: rest, count, invoked, nc =>
    if o.notificationName == notificationName then
      match ObjectObserver.notify o object with
      | Except.ok tr =>
          postNotificationWithObjectLoop notificationName object rest
            (count + 1) (invoked ++ tr) nc
      | Except.error e => ((invoked, Except.error e), nc)
    else
      postNotificationWithObjectLoop notificationName object rest count
        invoked nc

/-- `NotificationCenter::postNotificationWithObject(name, object)`:
initializes `notification_count = 0` and runs the scan loop over
`_objectObservers`. -/
def NotificationCenter.postNotificationWithObject (nc : NotificationCenter)
    (notificationName : String) (object : Payload) :
    (List Nat × Except NotificationError Nat) × NotificationCenter :=
  postNotificationWithObjectLoop notificationName object
    nc.objectObservers 0 [] nc

/-- The removal loop of `NotificationCenter::removeObserver` over one
collection: deletes each observer matching the identity and pushes every
other observer onto the keep list, which replaces the collection. -/
def removeObserverLoop (observer : Nat) :
    List Observer → List Observer → List Observer
  | [], toKeep => toKeep
  | o :: rest, toKeep =>
    if o.containsObserver observer then
      removeObserverLoop observer rest toKeep
    else
      removeObserverLoop observer rest (toKeep ++ [o])

/-- `NotificationCenter::removeObserver(void* observer)`: rebuilds
`_keyObservers` and `_objectObservers`, keeping exactly the observers whose
`containsObserver(observer)` is false; matching observers are destroyed. -/
def NotificationCenter.removeObserver (nc : NotificationCenter)
    (observer : Nat) : NotificationCenter :=
  { keyObservers := removeObserverLoop observer nc.keyObservers [],
    objectObservers := removeObserverLoop observer nc.objectObservers [] }

/-- `NotificationCenter::~NotificationCenter()`: if either collection is
non-empty, collects the quoted notification names of every remaining
observer (key observers first), joins them with `", "`, and throws a
`NotificationError` reporting the total observer count and the keys;
otherwise does nothing. -/
def NotificationCenter.destructor (nc : NotificationCenter) :
    Except NotificationError Unit :=
  if !nc.keyObservers.isEmpty || !nc.objectObservers.isEmpty then
    let keys : List String :=
      nc.keyObservers.map (fun o => "\"" ++ o.notificationName ++ "\"") ++
        nc.objectObservers.map (fun o => "\"" ++ o.notificationName ++ "\"")
    let key_string : String := String.intercalate ", " keys
    let total_observers : Nat :=
      nc.keyObservers.length + nc.objectObservers.length
    Except.error
      { msg := "bump::NotificationCenter has " ++ toString total_observers ++
          " observers left with keys: " ++ key_string,
        location := BUMP_LOCATION }
  else
    Except.ok ()

/-- The spec's "bindings whose notification name equals the posted name, in
stored order": written from the spec's words, for comparison with the
scan-loop implementations. -/
def matchingObservers (observers : List Observer) (notificationName : String) :
    List Observer :=
  observers.filter (fun o => o.notificationName == notificationName)

/-- The key-observer scan loop delivers to exactly the name-matching
observers, in order, and returns the running count plus the number of
matches; the center state and the error branch are untouched because
`KeyObserver.notify` always succeeds. -/
theorem postNotificationLoop_eq (notificationName : String)
    (observers : List Observer) (count : Nat) (invoked : List Nat)
    (nc : NotificationCenter) :
    postNotificationLoop notificationName observers count invoked nc =
      ((invoked ++
          (matchingObservers observers notificationName).map Observer.cbId,
        Except.ok
          (count +
            (matchingObservers observers notificationName).length)), nc) := by
  induction observers generalizing count invoked with
  | nil => simp [postNotificationLoop, matchingObservers]
  | cons o rest ih =>
    by_cases h : o.notificationName == notificationName
    · simp [postNotificationLoop, h, KeyObserver.notify, ih,
        matchingObservers, List.filter_cons_of_pos,
        List.append_assoc]
      omega
    · simp [postNotificationLoop, h, ih, matchingObservers,
        List.filter_cons_of_neg]

/-- The early-return containment scan is membership of the identity among
the stored owner identities. -/
theorem containsObserverLoop_iff (observer : Nat)
    (observers : List Observer) :
    containsObserverLoop observer observers = true ↔
      ∃ o ∈ observers, o.observer = observer := by
  induction observers with
  | nil => simp [containsObserverLoop]
  | cons o rest ih =>
    by_cases h : o.containsObserver observer
    · simp only [containsObserverLoop, h, if_pos, true_iff]
      refine ⟨o, List.mem_cons_self o rest, ?_⟩
      have := h
      simp only [Observer.containsObserver, beq_iff_eq] at this
      omega
    · simp only [containsObserverLoop, h, if_neg, Bool.false_eq_true,
        not_false_iff, ih]
      simp only [Observer.containsObserver, beq_iff_eq] at h
      constructor
      · rintro ⟨x, hx, hox⟩
        exact ⟨x, List.mem_cons_of_mem o hx, hox⟩
      · rintro ⟨x, hx, hox⟩
        rcases List.mem_cons.mp hx with rfl | hx
        · omega
        · exact ⟨x, hx, hox⟩

/-- The keep-list removal loop is an append of the accumulator with the
filter keeping exactly the observers whose owner identity differs. -/
theorem removeObserverLoop_eq (observer : Nat) (observers : List Observer)
    (toKeep : List Observer) :
    removeObserverLoop observer observers toKeep =
      toKeep ++
        observers.filter (fun o => decide (¬ o.observer = observer)) := by
  induction observers generalizing toKeep with
  | nil => simp [removeObserverLoop]
  | cons o rest ih =>
    by_cases ho : o.observer = observer
    · have h : o.containsObserver observer = true := by
        simp [Observer.containsObserver, ho]
      simp [removeObserverLoop, h, ih, List.filter_cons, ho]
    · have h : o.containsObserver observer = false := by
        simp [Observer.containsObserver]
        omega
      simp [removeObserverLoop, h, ih, List.filter_cons, ho,
        List.append_assoc]

/-- When every name-matching observer in the scanned list declares the
payload's type, the object scan loop delivers to exactly the matching
observers, in order, and returns the running count plus the number of
matches, leaving the center state untouched. -/
theorem postNotificationWithObjectLoop_ok (notificationName : String)
    (object : Payload) (observers : List Observer) (count : Nat)
    (invoked : List Nat) (nc : NotificationCenter)
    (h : ∀ o ∈ matchingObservers observers notificationName,
      o.castTag = object.typeTag) :
    postNotificationWithObjectLoop notificationName object observers count
        invoked nc =
      ((invoked ++
          (matchingObservers observers notificationName).map Observer.cbId,
        Except.ok
          (count +
            (matchingObservers observers notificationName).length)), nc) := by
  revert h
  induction observers generalizing count invoked with
  | nil => intro h; simp [postNotificationWithObjectLoop, matchingObservers]
  | cons o rest ih =>
    intro h
    by_cases hn : o.notificationName == notificationName
    · have hmem : o ∈ matchingObservers (o :: rest) notificationName := by
        simp [matchingObservers, List.filter_cons_of_pos, hn]
      have hcast : o.castTag = object.typeTag := h o hmem
      have hnotify : ObjectObserver.notify o object = Except.ok [o.cbId] := by
        simp [ObjectObserver.notify, hcast]
      have hrest : ∀ x ∈ matchingObservers rest notificationName,
          x.castTag = object.typeTag := by
        intro x hx
        apply h
        simp only [matchingObservers, List.mem_filter] at hx ⊢
        exact ⟨List.mem_cons_of_mem o hx.1, hx.2⟩
      simp [postNotificationWithObjectLoop, hn, hnotify, ih _ _ hrest,
        matchingObservers, List.filter_cons_of_pos, List.append_assoc]
      omega
    · have hrest : ∀ x ∈ matchingObservers rest notificationName,
          x.castTag = object.typeTag := by
        intro x hx
        apply h
        simp only [matchingObservers, List.mem_filter] at hx ⊢
        exact ⟨List.mem_cons_of_mem o hx.1, hx.2⟩
      simp [postNotificationWithObjectLoop, hn, ih _ _ hrest,
        matchingObservers, List.filter_cons_of_neg]

/-- When the scan reaches a name-matching observer whose declared type
rejects the payload, after a prefix whose matching observers all accept
it, the loop delivers to exactly the matching prefix observers and then
propagates the type-mismatch error; the mismatched observer's callback and
everything after it are skipped, and the center state is untouched. -/
theorem postNotificationWithObjectLoop_abort (notificationName : String)
    (object : Payload) (pre : List Observer) (bad : Observer)
    (rest : List Observer) (count : Nat) (invoked : List Nat)
    (nc : NotificationCenter)
    (hpre : ∀ o ∈ matchingObservers pre notificationName,
      o.castTag = object.typeTag)
    (hbadName : bad.notificationName = notificationName)
    (hbadTag : ¬ bad.castTag = object.typeTag) :
    postNotificationWithObjectLoop notificationName object
        (pre ++ bad :: rest) count invoked nc =
      ((invoked ++
          (matchingObservers pre notificationName).map Observer.cbId,
        Except.error
          { msg := typeMismatchMsg bad.notificationName,
            location := BUMP_LOCATION }), nc) := by
  revert hpre
  induction pre generalizing count invoked with
  | nil =>
    intro _
    have h2 : ¬ object.typeTag = bad.castTag := fun hh => hbadTag hh.symm
    simp [postNotificationWithObjectLoop, hbadName, ObjectObserver.notify,
      h2, matchingObservers]
  | cons o pre' ih =>
    intro hpre
    by_cases hn : o.notificationName == notificationName
    · have hmem : o ∈ matchingObservers (o :: pre') notificationName := by
        simp [matchingObservers, List.filter_cons_of_pos, hn]
      have hcast : o.castTag = object.typeTag := hpre o hmem
      have hnotify : ObjectObserver.notify o object = Except.ok [o.cbId] := by
        simp [ObjectObserver.notify, hcast]
      have hrest : ∀ x ∈ matchingObservers pre' notificationName,
          x.castTag = object.typeTag := by
        intro x hx
        apply hpre
        simp only [matchingObservers, List.mem_filter] at hx ⊢
        exact ⟨List.mem_cons_of_mem o hx.1, hx.2⟩
      simp [postNotificationWithObjectLoop, hn, hnotify, ih _ _ hrest,
        matchingObservers, List.filter_cons_of_pos, List.append_assoc]
    · have hrest : ∀ x ∈ matchingObservers pre' notificationName,
          x.castTag = object.typeTag := by
        intro x hx
        apply hpre
        simp only [matchingObservers, List.mem_filter] at hx ⊢
        exact ⟨List.mem_cons_of_mem o hx.1, hx.2⟩
      simp [postNotificationWithObjectLoop, hn, ih _ _ hrest,
        matchingObservers, List.filter_cons_of_neg]

/-- An unconditional frame fact about the object scan loop: whatever the
payload types, the loop returns the center it was given. -/
theorem postNotificationWithObjectLoop_center (notificationName : String)
    (object : Payload) (observers : List Observer) (count : Nat)
    (invoked : List Nat) (nc : NotificationCenter) :
    (postNotificationWithObjectLoop notificationName object observers count
        invoked nc).2 = nc := by
  induction observers generalizing count invoked with
  | nil => rfl
  | cons o rest ih =>
    by_cases hn : o.notificationName == notificationName
    · by_cases hc : object.typeTag == o.castTag
      · simp [postNotificationWithObjectLoop, hn, ObjectObserver.notify,
          hc, ih]
      · simp [postNotificationWithObjectLoop, hn, ObjectObserver.notify, hc]
    · simp [postNotificationWithObjectLoop, hn, ih]

/-- C1: `postNotification(name)` reads only the `_keyObservers`
(NO_PAYLOAD) collection, in stored order: its invocation trace is exactly
the callbacks of the bindings whose notification name equals the posted
name, in registration order, its return value is the number of bindings so
invoked, and the scan raises nothing. -/
theorem postNotification_dispatches_matching_in_order
    (nc : NotificationCenter) (notificationName : String) :
    nc.postNotification notificationName =
      (((matchingObservers nc.keyObservers notificationName).map
          Observer.cbId,
        Except.ok
          (matchingObservers nc.keyObservers notificationName).length),
        nc) := by
  simpa using
    postNotificationLoop_eq notificationName nc.keyObservers 0 [] nc

/-- C9: the no-payload dispatch path performs no runtime type recovery, so
`postNotification` never raises a `NotificationError`: for every registry
state and name it returns a count normally (owner callbacks being modelled
as non-raising). -/
theorem postNotification_cannot_raise (nc : NotificationCenter)
    (notificationName : String) :
    ∃ count, ((nc.postNotification notificationName).1).2 =
      Except.ok count := by
  refine ⟨(matchingObservers nc.keyObservers notificationName).length, ?_⟩
  rw [NotificationCenter.postNotification, postNotificationLoop_eq]
  simp

/-- C10: `postNotification`, `postNotificationWithObject` and
`containsObserver` write no member state: with callbacks that do not
re-enter the center, each returns the two collections exactly as they
were. -/
theorem post_and_contains_preserve_collections (nc : NotificationCenter)
    (notificationName : String) (object : Payload) (observer : Nat) :
    (nc.postNotification notificationName).2 = nc ∧
    (nc.postNotificationWithObject notificationName object).2 = nc ∧
    (nc.containsObserver observer).2 = nc := by
  refine ⟨?_, ?_, ?_⟩
  · rw [NotificationCenter.postNotification, postNotificationLoop_eq]
  · rw [NotificationCenter.postNotificationWithObject,
      postNotificationWithObjectLoop_center]
  · cases h1 : containsObserverLoop observer nc.keyObservers <;>
      cases h2 : containsObserverLoop observer nc.objectObservers <;>
        simp [NotificationCenter.containsObserver, h1, h2]

/-- C6: `containsObserver(x)` is true exactly when some binding in either
collection stores owner identity `x`, and the check returns the center
unchanged. -/
theorem containsObserver_iff_owner_registered (nc : NotificationCenter)
    (observer : Nat) :
    ((nc.containsObserver observer).1 = true ↔
      ∃ o ∈ nc.keyObservers ++ nc.objectObservers,
        o.observer = observer) ∧
    (nc.containsObserver observer).2 = nc := by
  have hfst : (nc.containsObserver observer).1 =
      (containsObserverLoop observer nc.keyObservers ||
        containsObserverLoop observer nc.objectObservers) := by
    cases h1 : containsObserverLoop observer nc.keyObservers <;>
      cases h2 : containsObserverLoop observer nc.objectObservers <;>
        simp [NotificationCenter.containsObserver, h1, h2]
  have hsnd : (nc.containsObserver observer).2 = nc := by
    cases h1 : containsObserverLoop observer nc.keyObservers <;>
      cases h2 : containsObserverLoop observer nc.objectObservers <;>
        simp [NotificationCenter.containsObserver, h1, h2]
  refine ⟨?_, hsnd⟩
  rw [hfst]
  simp only [Bool.or_eq_true, containsObserverLoop_iff, List.mem_append]
  constructor
  · rintro (⟨o, ho, h⟩ | ⟨o, ho, h⟩)
    · exact ⟨o, Or.inl ho, h⟩
    · exact ⟨o, Or.inr ho, h⟩
  · rintro ⟨o, ho | ho, h⟩
    · exact Or.inl ⟨o, ho, h⟩
    · exact Or.inr ⟨o, ho, h⟩

/-- C3: the destructor raises a `NotificationError` whenever either
collection is non-empty, reporting the total number of still-registered
observers and the quoted notification names of all of them (key observers
first), and raises nothing when both collections are empty. -/
theorem destructor_reports_leaked_registrations (nc : NotificationCenter) :
    (nc.keyObservers = [] ∧ nc.objectObservers = [] →
      nc.destructor = Except.ok ()) ∧
    (¬ (nc.keyObservers = [] ∧ nc.objectObservers = []) →
      nc.destructor = Except.error
        { msg := "bump::NotificationCenter has " ++
            toString (nc.keyObservers.length + nc.objectObservers.length) ++
            " observers left with keys: " ++
            String.intercalate ", "
              ((nc.keyObservers ++ nc.objectObservers).map
                (fun o => "\"" ++ o.notificationName ++ "\"")),
          location := BUMP_LOCATION }) := by
  constructor
  · rintro ⟨h1, h2⟩
    simp [NotificationCenter.destructor, h1, h2]
  · intro h
    have hne : (!nc.keyObservers.isEmpty || !nc.objectObservers.isEmpty)
        = true := by
      rcases not_and_or.mp h with h1 | h1 <;>
        simp [List.isEmpty_iff, h1]
    simp [NotificationCenter.destructor, hne, List.map_append]

/-- C4: `removeObserver(x)` keeps, in both collections and in stored
order, exactly the bindings whose owner identity differs from `x`
(destroying every binding owned by `x` regardless of name), is a no-op
when no binding is owned by `x`, never fails, and afterwards
`containsObserver(x)` is false. -/
theorem removeObserver_removes_exactly_owner (nc : NotificationCenter)
    (observer : Nat) :
    (nc.removeObserver observer).keyObservers =
      nc.keyObservers.filter (fun o => decide (¬ o.observer = observer)) ∧
    (nc.removeObserver observer).objectObservers =
      nc.objectObservers.filter
        (fun o => decide (¬ o.observer = observer)) ∧
    ((∀ o ∈ nc.keyObservers, ¬ o.observer = observer) →
      (∀ o ∈ nc.objectObservers, ¬ o.observer = observer) →
        nc.removeObserver observer = nc) ∧
    ((nc.removeObserver observer).containsObserver observer).1 = false := by
  have hk : (nc.removeObserver observer).keyObservers =
      nc.keyObservers.filter (fun o => decide (¬ o.observer = observer)) := by
    simp [NotificationCenter.removeObserver, removeObserverLoop_eq]
  have ho : (nc.removeObserver observer).objectObservers =
      nc.objectObservers.filter
        (fun o => decide (¬ o.observer = observer)) := by
    simp [NotificationCenter.removeObserver, removeObserverLoop_eq]
  have hloop : ∀ l : List Observer,
      containsObserverLoop observer
        (l.filter (fun o => !decide (o.observer = observer))) = false := by
    intro l
    rw [Bool.eq_false_iff]
    intro htrue
    obtain ⟨o, hmem, hox⟩ := (containsObserverLoop_iff observer _).mp htrue
    rw [List.mem_filter] at hmem
    have h2 := hmem.2
    simp only [Bool.not_eq_true', decide_eq_false_iff_not] at h2
    exact h2 hox
  refine ⟨hk, ho, ?_, ?_⟩
  · intro h1 h2
    cases nc with
    | mk k ob =>
      simp only at h1 h2
      simp [NotificationCenter.removeObserver, removeObserverLoop_eq,
        List.filter_eq_self]
      constructor
      · intro o hmem
        simpa using h1 o hmem
      · intro o hmem
        simpa using h2 o hmem
  · simp [NotificationCenter.containsObserver, hk, ho, hloop]

/-- C2: when `postNotificationWithObject(name, payload)` reaches a
matching PAYLOAD binding whose declared type rejects the payload's runtime
type (every matching binding registered before it having accepted it),
that binding's callback is not invoked, the `NotificationError` propagates
out of the post call, the invocation trace is exactly the callbacks of the
matching bindings registered before the mismatched one, in order, and no
matching binding registered after it is invoked. -/
theorem postNotificationWithObject_aborts_on_type_mismatch
    (keys pre rest : List Observer) (bad : Observer)
    (notificationName : String) (object : Payload)
    (hpre : ∀ o ∈ matchingObservers pre notificationName,
      o.castTag = object.typeTag)
    (hbadName : bad.notificationName = notificationName)
    (hbadTag : ¬ bad.castTag = object.typeTag) :
    NotificationCenter.postNotificationWithObject
        ⟨keys, pre ++ bad :: rest⟩ notificationName object =
      (((matchingObservers pre notificationName).map Observer.cbId,
        Except.error
          { msg := typeMismatchMsg bad.notificationName,
            location := BUMP_LOCATION }),
        ⟨keys, pre ++ bad :: rest⟩) := by
  simpa [NotificationCenter.postNotificationWithObject] using
    postNotificationWithObjectLoop_abort notificationName object pre bad
      rest 0 [] ⟨keys, pre ++ bad :: rest⟩ hpre hbadName hbadTag

/-- Witness for the type-mismatch abort: three PAYLOAD bindings for `"N"`;
the first declares the posted tag 5 and is invoked (callback 10), the
second declares tag 6 and aborts the scan, the third is never reached. -/
theorem postNotificationWithObject_aborts_on_type_mismatch_witness :
    NotificationCenter.postNotificationWithObject
        ⟨[], [⟨1, "N", ObserverType.OBJECT_OBSERVER, 5, 10⟩,
              ⟨2, "N", ObserverType.OBJECT_OBSERVER, 6, 11⟩,
              ⟨3, "N", ObserverType.OBJECT_OBSERVER, 5, 12⟩]⟩ "N" ⟨5⟩ =
      (([10], Except.error
          { msg := typeMismatchMsg "N", location := BUMP_LOCATION }),
        ⟨[], [⟨1, "N", ObserverType.OBJECT_OBSERVER, 5, 10⟩,
              ⟨2, "N", ObserverType.OBJECT_OBSERVER, 6, 11⟩,
              ⟨3, "N", ObserverType.OBJECT_OBSERVER, 5, 12⟩]⟩) := by
  simpa [matchingObservers] using
    postNotificationWithObject_aborts_on_type_mismatch []
      [⟨1, "N", ObserverType.OBJECT_OBSERVER, 5, 10⟩]
      [⟨3, "N", ObserverType.OBJECT_OBSERVER, 5, 12⟩]
      ⟨2, "N", ObserverType.OBJECT_OBSERVER, 6, 11⟩ "N" ⟨5⟩
      (by decide) rfl (by decide)

/-- A registry refuting the "count survives a mid-scan TypeMismatch" half
of C5: one matching PAYLOAD binding for `"N"` declaring tag 5, posted a
payload of tag 6. -/
def mismatchCenter : NotificationCenter :=
  ⟨[], [⟨1, "N", ObserverType.OBJECT_OBSERVER, 5, 10⟩]⟩

/-- Counterexample to C5 as stated: `postNotificationWithObject` does not
return the full match count (here 1) when a matching binding's invocation
raises mid-scan — no count is returned at all, the error propagates. -/
theorem postNotificationWithObject_count_lost_on_mismatch :
    ¬ ((mismatchCenter.postNotificationWithObject "N" ⟨6⟩).1).2 =
      Except.ok
        (matchingObservers mismatchCenter.objectObservers "N").length := by
  intro h
  have h2 : (Except.error
      { msg := typeMismatchMsg "N", location := BUMP_LOCATION }
      : Except NotificationError Nat) = Except.ok 1 := h
  exact Except.noConfusion h2

/-- C5 (amended): `postNotification` always returns the number of
name-matching NO_PAYLOAD bindings; `postNotificationWithObject` returns
the number of name-matching PAYLOAD bindings when every matching binding's
declared type accepts the payload, and returns no count at all — the
`NotificationError` propagates instead — when a matching binding's
invocation raises a type mismatch mid-scan. -/
theorem post_count_equals_matches_unless_aborted (nc : NotificationCenter)
    (notificationName : String) (object : Payload)
    (h : ∀ o ∈ matchingObservers nc.objectObservers notificationName,
      o.castTag = object.typeTag) :
    ((nc.postNotification notificationName).1).2 =
      Except.ok
        (matchingObservers nc.keyObservers notificationName).length ∧
    ((nc.postNotificationWithObject notificationName object).1).2 =
      Except.ok
        (matchingObservers nc.objectObservers notificationName).length := by
  constructor
  · rw [NotificationCenter.postNotification, postNotificationLoop_eq]
    simp
  · rw [NotificationCenter.postNotificationWithObject,
      postNotificationWithObjectLoop_ok _ _ _ _ _ _ h]
    simp

/-- Witness for the amended count property: a key binding and a well-typed
object binding for `"N"`, each counted once by its post variant. -/
theorem post_count_equals_matches_unless_aborted_witness :
    ((NotificationCenter.postNotification
        ⟨[⟨1, "N", ObserverType.KEY_OBSERVER, 0, 20⟩],
         [⟨2, "N", ObserverType.OBJECT_OBSERVER, 5, 21⟩]⟩ "N").1).2 =
      Except.ok 1 ∧
    ((NotificationCenter.postNotificationWithObject
        ⟨[⟨1, "N", ObserverType.KEY_OBSERVER, 0, 20⟩],
         [⟨2, "N", ObserverType.OBJECT_OBSERVER, 5, 21⟩]⟩ "N" ⟨5⟩).1).2 =
      Except.ok 1 := by
  have h := post_count_equals_matches_unless_aborted
    ⟨[⟨1, "N", ObserverType.KEY_OBSERVER, 0, 20⟩],
     [⟨2, "N", ObserverType.OBJECT_OBSERVER, 5, 21⟩]⟩ "N" ⟨5⟩ (by decide)
  simpa [matchingObservers] using h

/-- C7: registering two bindings with the same owner identity and the same
notification name always succeeds — `addObserver` appends unconditionally,
with no uniqueness check — both bindings remain stored in order, and a
subsequent post of that name invokes both callbacks and counts both. -/
theorem addObserver_permits_duplicates (nc : NotificationCenter)
    (owner cb1 cb2 : Nat) (notificationName : String) :
    ((nc.addObserver (KeyObserver.mk owner cb1 notificationName)).addObserver
        (KeyObserver.mk owner cb2 notificationName)).keyObservers =
      nc.keyObservers ++
        [KeyObserver.mk owner cb1 notificationName,
         KeyObserver.mk owner cb2 notificationName] ∧
    (((((nc.addObserver
          (KeyObserver.mk owner cb1 notificationName)).addObserver
            (KeyObserver.mk owner cb2 notificationName)).postNotification
              notificationName).1).1 =
      (((nc.postNotification notificationName).1).1) ++ [cb1, cb2]) ∧
    ((((nc.addObserver
          (KeyObserver.mk owner cb1 notificationName)).addObserver
            (KeyObserver.mk owner cb2 notificationName)).postNotification
              notificationName).1).2 =
      Except.ok
        ((matchingObservers nc.keyObservers notificationName).length + 2) := by
  have hadd : ((nc.addObserver
      (KeyObserver.mk owner cb1 notificationName)).addObserver
        (KeyObserver.mk owner cb2 notificationName)).keyObservers =
      nc.keyObservers ++
        [KeyObserver.mk owner cb1 notificationName,
         KeyObserver.mk owner cb2 notificationName] := by
    simp [NotificationCenter.addObserver, KeyObserver.mk]
  have hmatch : matchingObservers
      (nc.keyObservers ++
        [KeyObserver.mk owner cb1 notificationName,
         KeyObserver.mk owner cb2 notificationName]) notificationName =
      matchingObservers nc.keyObservers notificationName ++
        [KeyObserver.mk owner cb1 notificationName,
         KeyObserver.mk owner cb2 notificationName] := by
    simp [matchingObservers, List.filter_append, KeyObserver.mk]
  refine ⟨hadd, ?_, ?_⟩
  · rw [NotificationCenter.postNotification, NotificationCenter.postNotification,
      postNotificationLoop_eq, postNotificationLoop_eq, hadd, hmatch]
    simp [KeyObserver.mk]
  · rw [NotificationCenter.postNotification, postNotificationLoop_eq, hadd,
      hmatch]
    simp

/-- C8: a binding for name `n` registered into a registry holding no
NO_PAYLOAD binding for `n` is reached by a first post of `n` (count 1);
after `removeObserver` on its owner, a second post of `n` returns
count 0. -/
theorem register_post_unregister_post_returns_zero (nc : NotificationCenter)
    (owner cb : Nat) (n : String)
    (h : ∀ o ∈ nc.keyObservers, ¬ o.notificationName = n) :
    (((nc.addObserver (KeyObserver.mk owner cb n)).postNotification n).1).2 =
      Except.ok 1 ∧
    ((((nc.addObserver (KeyObserver.mk owner cb n)).removeObserver
        owner).postNotification n).1).2 = Except.ok 0 := by
  have hkey : (nc.addObserver (KeyObserver.mk owner cb n)).keyObservers =
      nc.keyObservers ++ [KeyObserver.mk owner cb n] := by
    simp [NotificationCenter.addObserver, KeyObserver.mk]
  have hnil : matchingObservers nc.keyObservers n = [] := by
    rw [matchingObservers, List.filter_eq_nil_iff]
    intro o hmem
    simp [h o hmem]
  constructor
  · rw [NotificationCenter.postNotification, postNotificationLoop_eq, hkey]
    simp [matchingObservers, List.filter_append, hnil, KeyObserver.mk]
    exact h
  · rw [NotificationCenter.postNotification, postNotificationLoop_eq]
    have hrem : ((nc.addObserver (KeyObserver.mk owner cb n)).removeObserver
        owner).keyObservers =
        (nc.keyObservers ++ [KeyObserver.mk owner cb n]).filter
          (fun o => decide (¬ o.observer = owner)) := by
      simp [NotificationCenter.removeObserver, removeObserverLoop_eq, hkey]
    rw [hrem]
    have hmt : matchingObservers
        ((nc.keyObservers ++ [KeyObserver.mk owner cb n]).filter
          (fun o => decide (¬ o.observer = owner))) n = [] := by
      rw [matchingObservers, List.filter_eq_nil_iff]
      intro o hmem
      rw [List.mem_filter] at hmem
      rcases List.mem_append.mp hmem.1 with hin | hin
      · simp [h o hin]
      · have hob : o = KeyObserver.mk owner cb n := by simpa using hin
        have : ¬ o.observer = owner := by
          have h2 := hmem.2
          simpa using h2
        exact absurd (by simp [hob, KeyObserver.mk]) this
    rw [hmt]
    simp

/-- Witness for the round trip: into an empty registry, register owner 1's
key binding for `"N"`, post (count 1), remove owner 1, post again
(count 0). -/
theorem register_post_unregister_post_returns_zero_witness :
    (((NotificationCenter.addObserver ⟨[], []⟩
        (KeyObserver.mk 1 2 "N")).postNotification "N").1).2 =
      Except.ok 1 ∧
    ((((NotificationCenter.addObserver ⟨[], []⟩
        (KeyObserver.mk 1 2 "N")).removeObserver 1).postNotification
          "N").1).2 = Except.ok 0 := by
  exact register_post_unregister_post_returns_zero ⟨[], []⟩ 1 2 "N"
    (by simp)
